import Mathlib

/-!
Verification of the claude-code-proxy translation engine against its
natural-language specification.

This file gives a shallow embedding, in Lean 4, of the translation core of
the proxy (src/app/streaming.py, src/app/converters/anthropic_to_litellm.py,
src/app/converters/litellm_to_anthropic.py,
src/app/utils/openai_compatibility.py, src/app/models.py) and proves or
refutes the specification claims about it.

Conventions of the embedding:
* Python SSE frames (strings of the form "event: <name>\ndata: <json>\n\n")
  are represented by the inductive `SSEEvent`; each constructor corresponds
  to one frame shape emitted by the source, carrying exactly the payload
  fields the source puts into the json body.  The literal terminator frame
  "data: [DONE]\n\n" is the constructor `SSEEvent.done`.
* Fresh uuid-based identifiers (msg_<uuid>, toolu_<uuid>, tool_<uuid>) are
  represented by fixed placeholder constants; no claim inspects their text.
* Duck-typed upstream chunks (attribute probing via hasattr/getattr and the
  dict fallbacks) are represented by records of `Option` fields: `none`
  models a missing/absent/None attribute; the object-vs-mapping dispatch in
  the source reads the same logical field either way.
* Python string truthiness ("if s:") is modelled by `s ≠ ""` (and `≠ none`,
  `≠ []`, `≠ 0` for the other falsy values), exactly where the source tests
  truthiness rather than `is not None`.
-/

/-! ## Streaming state machine (src/app/streaming.py) -/

/-- One SSE frame of the Anthropic streaming protocol, as emitted by
src/app/streaming.py.  Each constructor mirrors one literal
`f"event: ...\ndata: {json.dumps(...)}\n\n"` in the source; `done` is the
literal frame `"data: [DONE]\n\n"`. -/
inductive SSEEvent where
  /-- message_start frame (streaming.py line 34): carries the generated
  message id and the request model; content empty, usage zeroed. -/
  | messageStart (messageId model : String)
  /-- content_block_start frame for the text block (line 37), always at the
  given index with an empty text content block. -/
  | contentBlockStartText (index : Nat)
  /-- ping frame (line 40). -/
  | ping
  /-- content_block_start frame for a tool_use block (line 228) with the
  tool id and name and empty input. -/
  | contentBlockStartTool (index : Nat) (toolId name : String)
  /-- content_block_delta frame with a text_delta payload. -/
  | deltaText (index : Nat) (text : String)
  /-- content_block_delta frame with an input_json_delta payload carrying
  the raw argument fragment. -/
  | deltaInputJson (index : Nat) (fragment : String)
  /-- content_block_stop frame at the given index. -/
  | contentBlockStop (index : Nat)
  /-- message_delta frame carrying stop_reason and output-token usage. -/
  | messageDelta (stopReason : String) (outputTokens : Nat)
  /-- message_stop frame. -/
  | messageStop
  /-- the literal terminator frame "data: [DONE]\n\n". -/
  | done
deriving DecidableEq, Repr

/-- One element of a chunk delta's `tool_calls` list (streaming.py lines
199-239 read these fields).  `index`, `id`, `name`, `arguments` are `none`
when the corresponding attribute/key is absent (or the function object is
missing, which the source treats the same as missing name/arguments). -/
structure ToolCallFrag where
  index : Option Nat := none
  id : Option String := none
  name : Option String := none
  arguments : Option String := none
deriving DecidableEq, Repr

/-- The first choice of an upstream chunk: its delta's text content,
tool-call fragments and finish reason (streaming.py lines 133-146).
`content = none` models an absent/None content attribute, `some ""` a
present empty string (the source distinguishes them at line 157).
`tool_calls = []` models both an absent and an empty/None list (all falsy at
line 173); a non-list single fragment is the singleton list (line 179-180). -/
structure ChunkChoice where
  content : Option String := none
  tool_calls : List ToolCallFrag := []
  finish_reason : Option String := none
deriving DecidableEq, Repr

/-- An upstream streaming chunk as read by `_process_chunk` (streaming.py
lines 123-146): optional usage counters and an optional first choice
(`none` models `chunk.choices` absent or empty). -/
structure Chunk where
  usagePrompt : Option Nat := none
  usageCompletion : Option Nat := none
  choice : Option ChunkChoice := none
deriving DecidableEq, Repr

/-- Placeholder for the generated `toolu_<uuid4 hex prefix>` fallback id
(streaming.py lines 221 and 225). -/
def genToolId : String := "toolu_generated"

/-- The `StreamingState` class of streaming.py (lines 74-98) with its
`__init__` defaults.  `events` is the pending-event buffer filled by
`add_event` and drained by `get_and_clear_events`. -/
structure StreamingState where
  tool_index : Option Nat := none
  current_tool_call : Option ToolCallFrag := none
  tool_content : String := ""
  accumulated_text : String := ""
  text_sent : Bool := false
  text_block_closed : Bool := false
  input_tokens : Nat := 0
  output_tokens : Nat := 0
  has_sent_stop_reason : Bool := false
  last_tool_index : Nat := 0
  events : List SSEEvent := []
deriving DecidableEq, Repr

/-- `StreamingState.add_event` (streaming.py lines 90-92). -/
def StreamingState.add_event (s : StreamingState) (e : SSEEvent) : StreamingState :=
  { s with events := s.events ++ [e] }

/-- `StreamingState.finalize` (streaming.py lines 100-121): close open tool
blocks (indices 1..last_tool_index, only when a tool block was ever
opened), close the text block if not already closed (flushing accumulated
but never-sent text first), then message_delta with stop_reason end_turn
and the output-token usage, message_stop, and the [DONE] terminator. -/
def StreamingState.finalize (s : StreamingState) : List SSEEvent :=
  (if s.tool_index.isSome then
      (List.range' 1 s.last_tool_index).map SSEEvent.contentBlockStop
    else [])
  ++ (if s.text_block_closed then []
      else
        (if s.accumulated_text ≠ "" ∧ s.text_sent = false then
            [SSEEvent.deltaText 0 s.accumulated_text]
          else [])
        ++ [SSEEvent.contentBlockStop 0])
  ++ [SSEEvent.messageDelta "end_turn" s.output_tokens, SSEEvent.messageStop,
      SSEEvent.done]

/-- `_process_text_content` (streaming.py lines 148-162): a present,
non-empty content delta is appended to the accumulated text; while no tool
block has been opened and the text block is not closed it is also emitted
immediately as a text_delta at index 0 (marking text_sent). -/
def process_text_content (content : Option String) (s : StreamingState) :
    StreamingState :=
  match content with
  | none => s
  | some c =>
    if c ≠ "" then
      let s1 := { s with accumulated_text := s.accumulated_text ++ c }
      if s1.tool_index = none ∧ s1.text_block_closed = false then
        ({ s1 with text_sent := true }).add_event (SSEEvent.deltaText 0 c)
      else s1
    else s

/-- `_handle_first_tool_call` (streaming.py lines 185-197): before the first
tool block opens, the text block (index 0) is closed — flushing accumulated
but never-streamed text as one final text_delta first when needed. -/
def handle_first_tool_call (s : StreamingState) : StreamingState :=
  if s.text_sent = true ∧ s.text_block_closed = false then
    ({ s with text_block_closed := true }).add_event (SSEEvent.contentBlockStop 0)
  else if s.accumulated_text ≠ "" ∧ s.text_sent = false ∧ s.text_block_closed = false then
    let s1 := ({ s with text_sent := true }).add_event
      (SSEEvent.deltaText 0 s.accumulated_text)
    ({ s1 with text_block_closed := true }).add_event (SSEEvent.contentBlockStop 0)
  else if s.text_block_closed = false then
    ({ s with text_block_closed := true }).add_event (SSEEvent.contentBlockStop 0)
  else s

/-- `_process_single_tool_call` (streaming.py lines 199-253).  The upstream
index defaults to 0 when absent (lines 202-208).  A fragment whose index
differs from the currently tracked one (or when none is tracked) allocates
the next Anthropic block index and emits content_block_start (lines
211-230).  A non-empty argument string is appended to the tool buffer and
forwarded verbatim as input_json_delta at the latest block index (lines
232-253; the json.dumps/json.loads branch at 243-250 returns the string
`arguments` unchanged for every string input, in both the try and the
except branch, so it is the identity here). -/
def process_single_tool_call (tc : ToolCallFrag) (s : StreamingState) :
    StreamingState :=
  let current_index := tc.index.getD 0
  let s1 :=
    if s.tool_index = none ∨ s.tool_index ≠ some current_index then
      let s' := { s with tool_index := some current_index,
                         last_tool_index := s.last_tool_index + 1 }
      let s'' := s'.add_event
        (SSEEvent.contentBlockStartTool s'.last_tool_index
          (tc.id.getD genToolId) (tc.name.getD ""))
      { s'' with current_tool_call := some tc, tool_content := "" }
    else s
  let arguments := tc.arguments.getD ""
  if arguments ≠ "" then
    ({ s1 with tool_content := s1.tool_content ++ arguments }).add_event
      (SSEEvent.deltaInputJson s1.last_tool_index arguments)
  else s1

/-- `_process_tool_calls` (streaming.py lines 164-183): on a non-empty
tool_calls delta, first close the text block if no tool block is open yet,
then process each fragment in order. -/
def process_tool_calls (tcs : List ToolCallFrag) (s : StreamingState) :
    StreamingState :=
  if tcs ≠ [] then
    let s1 := if s.tool_index = none then handle_first_tool_call s else s
    tcs.foldl (fun st tc => process_single_tool_call tc st) s1
  else s

/-- `_process_finish_reason` (streaming.py lines 255-282): mark the stop
reason sent, close open tool blocks 1..last_tool_index (when any tool block
was opened), close the text block if not already closed (flushing unsent
accumulated text first), map the finish reason
(length→max_tokens, tool_calls→tool_use, stop→end_turn, else end_turn),
then emit message_delta with usage, message_stop, and [DONE].  Note the
source does NOT set text_block_closed here (it only emits the stop frame). -/
def process_finish_reason (finish_reason : String) (s : StreamingState) :
    StreamingState :=
  let s1 := { s with has_sent_stop_reason := true }
  let s2 :=
    if s1.tool_index.isSome then
      (List.range' 1 s1.last_tool_index).foldl
        (fun st i => st.add_event (SSEEvent.contentBlockStop i)) s1
    else s1
  let s3 :=
    if s2.text_block_closed = false then
      (if s2.accumulated_text ≠ "" ∧ s2.text_sent = false then
          s2.add_event (SSEEvent.deltaText 0 s2.accumulated_text)
        else s2).add_event (SSEEvent.contentBlockStop 0)
    else s2
  let stop_reason :=
    if finish_reason = "length" then "max_tokens"
    else if finish_reason = "tool_calls" then "tool_use"
    else if finish_reason = "stop" then "end_turn"
    else "end_turn"
  ((s3.add_event (SSEEvent.messageDelta stop_reason s3.output_tokens)).add_event
      SSEEvent.messageStop).add_event SSEEvent.done

/-- `_process_chunk` (streaming.py lines 123-146): update usage counters
when present, then — when the chunk has a first choice — process text
content, tool calls, and finally a truthy finish reason (only if no stop
reason was sent yet). -/
def process_chunk (c : Chunk) (s : StreamingState) : StreamingState :=
  let s1 := match c.usagePrompt with
    | some p => { s with input_tokens := p }
    | none => s
  let s2 := match c.usageCompletion with
    | some t => { s1 with output_tokens := t }
    | none => s1
  match c.choice with
  | none => s2
  | some ch =>
    let s3 := process_text_content ch.content s2
    let s4 := process_tool_calls ch.tool_calls s3
    match ch.finish_reason with
    | some fr =>
      if fr ≠ "" ∧ s4.has_sent_stop_reason = false then
        process_finish_reason fr s4
      else s4
    | none => s4

/-- Placeholder for the generated `msg_<uuid4 hex prefix>` message id
(streaming.py line 14). -/
def genMessageId : String := "msg_generated"

/-- The unconditional preamble of `handle_streaming` (streaming.py lines
13-40): message_start, content_block_start for the text block at index 0,
and a ping. -/
def streamPreamble (messageId model : String) : List SSEEvent :=
  [SSEEvent.messageStart messageId model, SSEEvent.contentBlockStartText 0,
   SSEEvent.ping]

/-- The per-chunk loop of `handle_streaming` (streaming.py lines 46-56) over
a finite upstream sequence.  An input element `none` stands for a chunk
whose per-chunk processing raises (before mutating the state): the inner
`except` logs and continues, so it contributes nothing (lines 54-56).  A
`some c` element is processed and its freshly queued events are drained by
`get_and_clear_events` and yielded in order (lines 48-52).  Returns the
yielded events and the final state. -/
def runChunks : List (Option Chunk) → StreamingState →
    List SSEEvent × StreamingState
  | [], s => ([], s)
  | none :: rest, s => runChunks rest s
  | some c :: rest, s =>
    let s1 := process_chunk c s
    let out := runChunks rest { s1 with events := [] }
    (s1.events ++ out.1, out.2)

/-- `handle_streaming` (streaming.py lines 10-72) over a finite upstream
chunk sequence.  `genFails = true` models the upstream async generator
raising after yielding its chunks: the exception escapes the per-chunk
try/except, the outer except emits message_delta with stop_reason "error"
and zero output tokens, message_stop, and [DONE], and nothing more (lines
63-72).  Otherwise, after exhaustion the stream is finalized when no stop
reason has been sent yet (lines 58-61). -/
def handle_streaming (messageId model : String) (chunks : List (Option Chunk))
    (genFails : Bool) : List SSEEvent :=
  let run := runChunks chunks {}
  streamPreamble messageId model ++ run.1 ++
    (if genFails then
        [SSEEvent.messageDelta "error" 0, SSEEvent.messageStop, SSEEvent.done]
      else if run.2.has_sent_stop_reason = false then run.2.finalize
      else [])

/-- A text-only upstream chunk whose delta carries exactly the text `t`. -/
def mkTextChunk (t : String) : Chunk :=
  { choice := some { content := some t } }

/-- An upstream chunk whose delta carries exactly the one tool-call fragment
`tc`. -/
def mkToolChunk (tc : ToolCallFrag) : Chunk :=
  { choice := some { tool_calls := [tc] } }

/-- An upstream chunk whose delta carries only a finish reason. -/
def mkFinishChunk (fr : String) : Chunk :=
  { choice := some { finish_reason := some fr } }

/-- The block indices of the tool content_block_start events of a frame
sequence, in emission order. -/
def toolStartIndices (evs : List SSEEvent) : List Nat :=
  evs.filterMap fun e =>
    match e with
    | SSEEvent.contentBlockStartTool i _ _ => some i
    | _ => none

/-- The frames emitted strictly after the first [DONE] terminator frame. -/
def afterFirstDone (evs : List SSEEvent) : List SSEEvent :=
  (evs.dropWhile fun e => e ≠ SSEEvent.done).drop 1

/-- Concatenation of a list of strings in order. -/
def joinStrs : List String → String
  | [] => ""
  | t :: ts => t ++ joinStrs ts

/-- Concatenation of the payloads of all text_delta frames of a sequence. -/
def textDeltaConcat (evs : List SSEEvent) : String :=
  joinStrs (evs.filterMap fun e =>
    match e with
    | SSEEvent.deltaText _ t => some t
    | _ => none)

/-- `true` iff the (possibly skipped) chunk carries no truthy finish reason
(streaming.py line 145 treats `None` and `""` as no finish reason). -/
def chunkNoFinish (oc : Option Chunk) : Bool :=
  match oc with
  | none => true
  | some c =>
    match c.choice with
    | none => true
    | some ch =>
      match ch.finish_reason with
      | none => true
      | some fr => fr = ""

/-- The four-fragment upstream stream whose tool-call fragments carry the
upstream indices [5, 5, 7, 5], one fragment per chunk (the spec's
tool-index-stability example). -/
def frags5575 : List ToolCallFrag :=
  [{ index := some 5, id := some "a", name := some "fa", arguments := some "argfrag" },
   { index := some 5, id := some "b", name := some "fb", arguments := some "x" },
   { index := some 7, id := some "c", name := some "fc", arguments := some "y" },
   { index := some 5, id := some "d", name := some "fd", arguments := some "z" }]

/-- The events the stream translator emits for the [5, 5, 7, 5] stream. -/
def run5575Events : List SSEEvent :=
  (runChunks (frags5575.map (fun f => some (mkToolChunk f))) {}).1

/-- A stream carrying a text delta, then a finish reason, then another text
delta after the finalize sequence. -/
def lateTextStream : List (Option Chunk) :=
  [some (mkTextChunk "a"), some (mkFinishChunk "stop"), some (mkTextChunk "b")]

/-! ## JSON values

Python values flowing through the converters (dicts, lists, strings,
numbers, booleans, None) are modelled by `JVal`.  Dicts are association
lists with distinct keys (`.get` is first-match lookup). -/

/-- A Python/JSON value as handled by the converters. -/
inductive JVal where
  | str (s : String)
  | num (n : Int)
  | bool (b : Bool)
  | null
  | arr (items : List JVal)
  | obj (fields : List (String × JVal))
deriving Repr

/-- Python `dict.get(k)`: first binding of the key, if any. -/
def jget (fields : List (String × JVal)) (k : String) : Option JVal :=
  (fields.find? (fun p => p.1 = k)).map (fun p => p.2)

/-- Whether an optional value is the JSON string `s`. -/
def jIsStr (v : Option JVal) (s : String) : Bool :=
  match v with
  | some (JVal.str t) => t = s
  | _ => false

/-- JSON string escaping for the characters `json.dumps` always escapes;
other control characters (escaped as \uXXXX by Python) do not occur in any
value this development evaluates. -/
def jescapeChar (c : Char) : String :=
  if c = '\\' then "\\\\"
  else if c = '"' then "\\\""
  else if c = '\n' then "\\n"
  else if c = '\t' then "\\t"
  else if c = '\r' then "\\r"
  else String.singleton c

/-- JSON escaping of a whole string. -/
def jescape (s : String) : String :=
  joinStrs (s.data.map jescapeChar)

mutual

/-- Python `json.dumps(v)` with its default separators (", " and ": "). -/
def jdump : JVal → String
  | JVal.str s => "\"" ++ jescape s ++ "\""
  | JVal.num n => toString n
  | JVal.bool b => if b then "true" else "false"
  | JVal.null => "null"
  | JVal.arr items => "[" ++ jdumpArr items ++ "]"
  | JVal.obj fields => "\x7b" ++ jdumpObj fields ++ "\x7d"

/-- Comma-joined dumps of array elements. -/
def jdumpArr : List JVal → String
  | [] => ""
  | [v] => jdump v
  | v :: rest => jdump v ++ ", " ++ jdumpArr rest

/-- Comma-joined dumps of object entries. -/
def jdumpObj : List (String × JVal) → String
  | [] => ""
  | [(k, v)] => "\"" ++ jescape k ++ "\": " ++ jdump v
  | (k, v) :: rest => "\"" ++ jescape k ++ "\": " ++ jdump v ++ ", " ++ jdumpObj rest

end

/-- Indentation prefix used by `json.dumps(..., indent=2)`. -/
def jindent (lvl : Nat) : String :=
  joinStrs (List.replicate lvl "  ")

mutual

/-- Python `json.dumps(v, indent=2)` at nesting level `lvl`. -/
def jdumpInd : Nat → JVal → String
  | _, JVal.str s => "\"" ++ jescape s ++ "\""
  | _, JVal.num n => toString n
  | _, JVal.bool b => if b then "true" else "false"
  | _, JVal.null => "null"
  | _, JVal.arr [] => "[]"
  | lvl, JVal.arr items =>
    "[\n" ++ jdumpIndArr (lvl + 1) items ++ "\n" ++ jindent lvl ++ "]"
  | _, JVal.obj [] => "\x7b\x7d"
  | lvl, JVal.obj fields =>
    "\x7b\n" ++ jdumpIndObj (lvl + 1) fields ++ "\n" ++ jindent lvl ++ "\x7d"

/-- Indented, comma-newline-joined dumps of array elements. -/
def jdumpIndArr : Nat → List JVal → String
  | _, [] => ""
  | lvl, [v] => jindent lvl ++ jdumpInd lvl v
  | lvl, v :: rest =>
    jindent lvl ++ jdumpInd lvl v ++ ",\n" ++ jdumpIndArr lvl rest

/-- Indented, comma-newline-joined dumps of object entries. -/
def jdumpIndObj : Nat → List (String × JVal) → String
  | _, [] => ""
  | lvl, [(k, v)] => jindent lvl ++ "\"" ++ jescape k ++ "\": " ++ jdumpInd lvl v
  | lvl, (k, v) :: rest =>
    jindent lvl ++ "\"" ++ jescape k ++ "\": " ++ jdumpInd lvl v ++ ",\n" ++
      jdumpIndObj lvl rest

end

mutual

/-- Python `repr(v)` (quote-escaping inside repr-ed strings, which no
evaluated value of this development contains, is elided). -/
def pyRepr : JVal → String
  | JVal.str s => "\x27" ++ s ++ "\x27"
  | JVal.num n => toString n
  | JVal.bool b => if b then "True" else "False"
  | JVal.null => "None"
  | JVal.arr items => "[" ++ pyReprArr items ++ "]"
  | JVal.obj fields => "\x7b" ++ pyReprObj fields ++ "\x7d"

/-- Comma-joined reprs of list elements. -/
def pyReprArr : List JVal → String
  | [] => ""
  | [v] => pyRepr v
  | v :: rest => pyRepr v ++ ", " ++ pyReprArr rest

/-- Comma-joined reprs of dict entries. -/
def pyReprObj : List (String × JVal) → String
  | [] => ""
  | [(k, v)] => "\x27" ++ k ++ "\x27: " ++ pyRepr v
  | (k, v) :: rest => "\x27" ++ k ++ "\x27: " ++ pyRepr v ++ ", " ++ pyReprObj rest

end

/-- Python `str(v)`: the value itself for strings, `repr` otherwise. -/
def pyStr (v : JVal) : String :=
  match v with
  | JVal.str s => s
  | v => pyRepr v

/-- Python `str.strip()` (the ASCII whitespace Python and Lean agree on;
no evaluated value contains other unicode whitespace). -/
def pyStrip (s : String) : String :=
  String.mk
    (((s.toList.dropWhile Char.isWhitespace).reverse.dropWhile
        Char.isWhitespace).reverse)

/-- Python `str.startswith(pre)`. -/
def pyStartsWith (s pre : String) : Bool :=
  pre.toList.isPrefixOf s.toList

/-- Python slicing `s[n:]` (character-based, as in the source). -/
def pyDropChars (s : String) (n : Nat) : String :=
  String.mk (s.toList.drop n)

/-- Python `str.lower()` (ASCII case folding; all routed names are ASCII). -/
def pyLower (s : String) : String :=
  String.mk (s.toList.map Char.toLower)

/-! ## Request conversion (src/app/converters/anthropic_to_litellm.py)

The embedded fragment covers the system prompt, the message/content
conversion and the sampling parameters (lines 10-93 and 95-162).  The
tools/tool_choice conversion (lines 85-91 and 164-214) depends on
`utils/content_parser.clean_gemini_schema`, which lies outside the
translation fragment embedded here, and no claim concerns it; the `tools`
and `tool_choice` keys are therefore not modelled. -/

/-- Message roles appearing in the pipeline.  The Anthropic request model
(models.py `Message`) only admits `user` and `assistant`; `system` occurs
in the outgoing message list built by the converter. -/
inductive Role where
  | user
  | assistant
  | system
deriving DecidableEq, Repr

/-- An Anthropic request content block (models.py lines 9-26).  The pydantic
`Message` model admits exactly the four tagged variants; `other` represents
a block with an unrecognized `type` tag, unreachable through the validated
model but handled by the converter's fall-through (anthropic_to_litellm.py
line 162 returns None for it).  A tool_result's `content` is an arbitrary
value (`none` models a missing content attribute, which the converter
defends against at lines 98 and 150). -/
inductive ContentBlock where
  | text (text : String)
  | image (source : List (String × JVal))
  | tool_use (id name : String) (input : List (String × JVal))
  | tool_result (tool_use_id : String) (content : Option JVal)
  | other (ty : String)
deriving Repr

/-- Message content: a plain string or a list of blocks (models.py line 34). -/
inductive AContent where
  | str (s : String)
  | blocks (bs : List ContentBlock)
deriving Repr

/-- One Anthropic request message. -/
structure AMessage where
  role : Role
  content : AContent
deriving Repr

/-- `_extract_tool_result_content` for one list item (anthropic_to_litellm.py
lines 102-114): a dict tagged text contributes its text, another dict its
"text" entry if present and its json dump otherwise, and a non-dict item
contributes nothing (no matching branch).  Non-string "text" values — which
the Python `+` would reject with a TypeError — are stringified; no claim
exercises them. -/
def extract_tr_item (item : JVal) : String :=
  match item with
  | JVal.obj fs =>
    if jIsStr (jget fs "type") "text" then
      (match jget fs "text" with
       | some v => pyStr v
       | none => "") ++ "\n"
    else
      (match jget fs "text" with
       | some v => pyStr v
       | none => jdump (JVal.obj fs)) ++ "\n"
  | _ => ""

/-- `_extract_tool_result_content` (anthropic_to_litellm.py lines 95-129):
string content verbatim; list content item-wise via `extract_tr_item`; dict
content its text when tagged text, its json dump otherwise; any other value
its Python str(); missing content gives the empty string. -/
def extract_tool_result_content (content : Option JVal) : String :=
  match content with
  | none => ""
  | some (JVal.str s) => s
  | some (JVal.arr items) => joinStrs (items.map extract_tr_item)
  | some (JVal.obj fs) =>
    if jIsStr (jget fs "type") "text" then
      match jget fs "text" with
      | some v => pyStr v
      | none => ""
    else jdump (JVal.obj fs)
  | some v => pyStr v

/-- Whether a block is a tool_result block (the generator condition at
anthropic_to_litellm.py line 36; every modelled block has a type). -/
def isToolResultBlock : ContentBlock → Bool
  | ContentBlock.tool_result _ _ => true
  | _ => false

/-- The flattening loop of the tool-result branch (anthropic_to_litellm.py
lines 37-47): text blocks contribute their text plus a newline, tool_result
blocks contribute "Tool result for <id>:\n<extracted content>\n", all other
blocks contribute nothing. -/
def flatten_user_tool_result (bs : List ContentBlock) : String :=
  bs.foldl
    (fun acc b =>
      acc ++
        match b with
        | ContentBlock.text t => t ++ "\n"
        | ContentBlock.tool_result tid c =>
          "Tool result for " ++ tid ++ ":\n" ++
            extract_tool_result_content c ++ "\n"
        | _ => "")
    ""

/-- A converted (LiteLLM/OpenAI-shaped) content block (the dicts built by
`_process_content_block`, anthropic_to_litellm.py lines 131-162).  A
converted tool_result's content is always a list of values (lines
150-158). -/
inductive LitBlock where
  | text (text : String)
  | image (source : List (String × JVal))
  | tool_use (id name : String) (input : List (String × JVal))
  | tool_result (tool_use_id : String) (content : List JVal)
deriving Repr

/-- `_process_content_block` (anthropic_to_litellm.py lines 131-162): the
four known tags map 1:1 (a tool_result's content is wrapped into a
single-text list when it is a string, passed through when it is a list, and
stringified into a single-text list otherwise — or an empty text when the
attribute is missing); an unknown tag yields None and is dropped by the
caller (line 55). -/
def process_content_block : ContentBlock → Option LitBlock
  | ContentBlock.text t => some (LitBlock.text t)
  | ContentBlock.image src => some (LitBlock.image src)
  | ContentBlock.tool_use i n input => some (LitBlock.tool_use i n input)
  | ContentBlock.tool_result tid c =>
    some (LitBlock.tool_result tid
      (match c with
       | some (JVal.str s) =>
         [JVal.obj [("type", JVal.str "text"), ("text", JVal.str s)]]
       | some (JVal.arr items) => items
       | some v =>
         [JVal.obj [("type", JVal.str "text"), ("text", JVal.str (pyStr v))]]
       | none =>
         [JVal.obj [("type", JVal.str "text"), ("text", JVal.str "")]]))
  | ContentBlock.other _ => none

/-- Content of one converted message: a plain string or a block list. -/
inductive LitContent where
  | str (s : String)
  | blocks (bs : List LitBlock)
deriving Repr

/-- Whether converted message content is a plain string. -/
def LitContent.isStr : LitContent → Bool
  | LitContent.str _ => true
  | LitContent.blocks _ => false

/-- One converted message. -/
structure LitMessage where
  role : Role
  content : LitContent
deriving Repr

/-- The per-message conversion (anthropic_to_litellm.py lines 30-58): string
content passes through; a user message whose block list contains AT LEAST
ONE tool_result block is flattened into one synthetic text message
(stripped); every other block list is mapped block-wise with unknown blocks
dropped. -/
def convert_message (msg : AMessage) : LitMessage :=
  match msg.content with
  | AContent.str s => { role := msg.role, content := LitContent.str s }
  | AContent.blocks bs =>
    if msg.role = Role.user ∧ bs.any isToolResultBlock then
      { role := Role.user,
        content := LitContent.str (pyStrip (flatten_user_tool_result bs)) }
    else
      { role := msg.role,
        content := LitContent.blocks (bs.filterMap process_content_block) }

/-- An Anthropic request as validated by models.py `MessagesRequest` (the
fields the embedded converter fragment reads).  `temperature` defaults to
1 and `stream` to false in the pydantic model; `none` models an explicit
null. -/
structure AnthropicRequest where
  model : String
  max_tokens : Nat
  messages : List AMessage := []
  system : Option (Sum String (List String)) := none
  stop_sequences : Option (List String) := none
  stream : Option Bool := some false
  temperature : Option Rat := some 1
  top_p : Option Rat := none
  top_k : Option Int := none
deriving Repr

/-- The normalized LiteLLM request dict built at anthropic_to_litellm.py
lines 67-83.  The five mandatory keys are plain fields (always present);
`stop`, `top_p` and `top_k` are `none` when the corresponding key is not
added at all. -/
structure LitRequest where
  model : String
  messages : List LitMessage
  max_tokens : Nat
  temperature : Option Rat
  stream : Option Bool
  stop : Option (List String)
  top_p : Option Rat
  top_k : Option Int
deriving Repr

/-- The system-message prefix (anthropic_to_litellm.py lines 14-27): a
truthy string system prompt becomes one system message; a block list is
concatenated with blank-line separators and, when non-empty, appended
stripped; a falsy system prompt contributes nothing. -/
def system_messages (system : Option (Sum String (List String))) :
    List LitMessage :=
  match system with
  | none => []
  | some (Sum.inl s) =>
    if s ≠ "" then [{ role := Role.system, content := LitContent.str s }]
    else []
  | some (Sum.inr texts) =>
    let system_text := joinStrs (texts.map (fun t => t ++ "\n\n"))
    if system_text ≠ "" then
      [{ role := Role.system, content := LitContent.str (pyStrip system_text) }]
    else []

/-- `convert_anthropic_to_litellm` (anthropic_to_litellm.py lines 10-93,
without the unmodelled tools/tool_choice keys): system messages, converted
conversation messages, max_tokens capped at 16384 for openai/ and gemini/
models, temperature and stream copied unconditionally, and stop_sequences,
top_p and top_k copied only when truthy. -/
def convert_anthropic_to_litellm (req : AnthropicRequest) : LitRequest :=
  { model := req.model
    messages := system_messages req.system ++ req.messages.map convert_message
    max_tokens :=
      if pyStartsWith req.model "openai/" || pyStartsWith req.model "gemini/" then
        min req.max_tokens 16384
      else req.max_tokens
    temperature := req.temperature
    stream := req.stream
    stop :=
      match req.stop_sequences with
      | some l => if l ≠ [] then some l else none
      | none => none
    top_p :=
      match req.top_p with
      | some p => if p ≠ 0 then some p else none
      | none => none
    top_k :=
      match req.top_k with
      | some k => if k ≠ 0 then some k else none
      | none => none }

/-! ## Provider normalization (src/app/utils/openai_compatibility.py)

This module is duck-typed over raw message dicts, so block lists are
modelled as `List JVal`.  The field stripping (`_remove_unsupported_fields`)
acts on dict keys outside the modelled content and is the identity on the
modelled fields. -/

/-- A message's content as seen by `process_openai_request`: a plain string,
a list of block dicts, or Python None. -/
inductive OMsgContent where
  | str (s : String)
  | list (items : List JVal)
  | none
deriving Repr

/-- `_is_only_tool_result_message` (openai_compatibility.py lines 35-44):
false for an empty list, else true iff every item is a dict whose type is
"tool_result". -/
def is_only_tool_result_message (content : List JVal) : Bool :=
  if content.isEmpty then false
  else
    content.all fun b =>
      match b with
      | JVal.obj fs => jIsStr (jget fs "type") "tool_result"
      | _ => false

/-- One item of a tool_result content list inside
`_extract_tool_result_text` (openai_compatibility.py lines 55-63): a dict
tagged text contributes its text, any other dict its "text" entry when
present and its json dump otherwise, each newline-terminated; non-dict
items contribute nothing. -/
def tool_result_item_text (item : JVal) : String :=
  match item with
  | JVal.obj fs =>
    if jIsStr (jget fs "type") "text" then
      (match jget fs "text" with
       | some v => pyStr v
       | Option.none => "") ++ "\n"
    else
      (match jget fs "text" with
       | some v => pyStr v
       | Option.none => jdump (JVal.obj fs)) ++ "\n"
  | _ => ""

/-- The per-block body of `_extract_tool_result_text` (openai_compatibility
.py lines 50-70): the block's "content" entry (defaulting to an empty list)
rendered as item-wise text for a list, verbatim plus newline for a string,
and json dump plus newline otherwise.  The non-dict block case cannot occur
under the `_is_only_tool_result_message` guard. -/
def tool_result_block_text (b : JVal) : String :=
  let rc :=
    match b with
    | JVal.obj fs => (jget fs "content").getD (JVal.arr [])
    | _ => JVal.arr []
  match rc with
  | JVal.arr items => joinStrs (items.map tool_result_item_text)
  | JVal.str s => s ++ "\n"
  | v => jdump v ++ "\n"

/-- `_extract_tool_result_text` (openai_compatibility.py lines 46-72):
"Tool Result:\n" plus the block's extracted text, per block, concatenated;
stripped, with the placeholder "..." substituted when the strip leaves
nothing. -/
def extract_tool_result_text (content : List JVal) : String :=
  let all_text :=
    joinStrs (content.map (fun b => "Tool Result:\n" ++ tool_result_block_text b))
  if pyStrip all_text = "" then "..." else pyStrip all_text

/-- `_extract_nested_tool_result_content` (openai_compatibility.py lines
101-133). -/
def extract_nested_tool_result_content (rc : JVal) : String :=
  match rc with
  | JVal.arr items => joinStrs (items.map tool_result_item_text)
  | JVal.obj fs =>
    if jIsStr (jget fs "type") "text" then
      (match jget fs "text" with
       | some v => pyStr v
       | Option.none => "") ++ "\n"
    else jdump (JVal.obj fs) ++ "\n"
  | JVal.str s => s ++ "\n"
  | v => jdump v ++ "\n"

/-- A dict's entry rendered into an f-string with a default
(`block.get(k, default)` followed by Python str()). -/
def strField (fs : List (String × JVal)) (k default : String) : String :=
  match jget fs k with
  | some v => pyStr v
  | Option.none => default

/-- `_convert_content_blocks_to_text` (openai_compatibility.py lines
74-99): text blocks verbatim; tool_result blocks as "[Tool Result ID: <id>]"
plus nested text; tool_use blocks as "[Tool: <name> (ID: <id>)]\nInput:
<json>"; image blocks as a fixed placeholder; anything else skipped;
stripped with "..." substituted for an empty result. -/
def convert_content_blocks_to_text (content : List JVal) : String :=
  let text_content :=
    content.foldl
      (fun acc b =>
        match b with
        | JVal.obj fs =>
          if jIsStr (jget fs "type") "text" then
            acc ++ strField fs "text" "" ++ "\n"
          else if jIsStr (jget fs "type") "tool_result" then
            acc ++ "[Tool Result ID: " ++ strField fs "tool_use_id" "unknown" ++
              "]\n" ++
              extract_nested_tool_result_content
                ((jget fs "content").getD (JVal.arr []))
          else if jIsStr (jget fs "type") "tool_use" then
            acc ++ "[Tool: " ++ strField fs "name" "unknown" ++ " (ID: " ++
              strField fs "id" "unknown" ++ ")]\nInput: " ++
              jdump ((jget fs "input").getD (JVal.obj [])) ++ "\n\n"
          else if jIsStr (jget fs "type") "image" then
            acc ++ "[Image content - not displayed in text format]\n"
          else acc
        | _ => acc)
      ""
  if pyStrip text_content = "" then "..." else pyStrip text_content

/-- The per-message content normalization of `process_openai_request`
(openai_compatibility.py lines 13-33 together with the final validation
pass of lines 144-157): an only-tool-result block list is replaced by its
extracted text; any other block list is collapsed to a plain string; None
content becomes the "..." placeholder; string content is untouched. -/
def process_openai_message_content : OMsgContent → OMsgContent
  | OMsgContent.list items =>
    if is_only_tool_result_message items then
      OMsgContent.str (extract_tool_result_text items)
    else OMsgContent.str (convert_content_blocks_to_text items)
  | OMsgContent.none => OMsgContent.str "..."
  | OMsgContent.str s => OMsgContent.str s

/-! ## Response conversion (src/app/converters/litellm_to_anthropic.py) -/

/-- The arguments carried by an upstream tool call, as consumed at
litellm_to_anthropic.py lines 156-162: a string together with the outcome
of `json.loads` on it (`none` embeds a parse failure), or a non-string
value passed through as-is. -/
inductive ArgVal where
  | argString (raw : String) (parsed : Option JVal)
  | argValue (v : JVal)
deriving Repr

/-- One upstream tool call (litellm_to_anthropic.py lines 144-154 read
these; a missing function object yields name "" and arguments "{}"). -/
structure LLToolCall where
  id : Option String := Option.none
  name : Option String := Option.none
  arguments : ArgVal := ArgVal.argString "\x7b\x7d" (some (JVal.obj []))
deriving Repr

/-- The first choice's data extracted by `_extract_response_data`
(litellm_to_anthropic.py lines 73-109), identical for the object-style and
mapping-style upstream shapes: message content (none models Python None),
tool calls (none models None; a non-list value is the singleton list),
finish reason (none models None; extraction defaults to "stop" when the key
is absent), usage counters (defaulting to 0) and an optional response id
(defaulting to a generated one). -/
structure LLResponseData where
  content_text : Option String := some ""
  tool_calls : Option (List LLToolCall) := Option.none
  finish_reason : Option String := some "stop"
  prompt_tokens : Nat := 0
  completion_tokens : Nat := 0
  response_id : Option String := Option.none
deriving Repr

/-- Placeholder for the generated `msg_<uuid4>` response id
(litellm_to_anthropic.py lines 43, 65, 84, 95, 108). -/
def genRespMsgId : String := "msg_generated_response"

/-- Placeholder for the generated `tool_<uuid4>` fallback tool id
(litellm_to_anthropic.py lines 147, 152, 186, 191). -/
def genRespToolId : String := "tool_generated"

/-- A content block of the Anthropic response (models.py `MessagesResponse`
admits text and tool_use blocks). -/
inductive RespBlock where
  | text (text : String)
  | tool_use (id name : String) (input : JVal)
deriving Repr

/-- `_process_tool_calls_for_claude` for one call (litellm_to_anthropic.py
lines 141-171): parsed string arguments become the input; unparseable
string arguments are wrapped as a raw-keyed object; non-string arguments
pass through unchanged. -/
def claude_tool_block (tc : LLToolCall) : RespBlock :=
  let input :=
    match tc.arguments with
    | ArgVal.argString _ (some v) => v
    | ArgVal.argString raw Option.none => JVal.obj [("raw", JVal.str raw)]
    | ArgVal.argValue v => v
  RespBlock.tool_use (tc.id.getD genRespToolId) (tc.name.getD "") input

/-- `_convert_tool_calls_to_text` for one call (litellm_to_anthropic.py
lines 182-205): parseable string arguments are pretty-printed with
indent 2, unparseable ones forwarded verbatim, non-string values
pretty-printed. -/
def tool_call_text (tc : LLToolCall) : String :=
  let arguments_str :=
    match tc.arguments with
    | ArgVal.argString _ (some v) => jdumpInd 0 v
    | ArgVal.argString raw Option.none => raw
    | ArgVal.argValue v => jdumpInd 0 v
  "Tool: " ++ tc.name.getD "" ++ "\nArguments: " ++ arguments_str ++ "\n\n"

/-- `_build_content_blocks` (litellm_to_anthropic.py lines 111-132): a text
block iff the content text is present and non-empty; then, when tool calls
are present (truthy), native tool_use blocks for claude models, or a
human-readable tool-usage text appended to the first text block (or as a
new text block) otherwise. -/
def build_content_blocks (rd : LLResponseData) (is_claude_model : Bool) :
    List RespBlock :=
  let content :=
    match rd.content_text with
    | some t => if t ≠ "" then [RespBlock.text t] else []
    | Option.none => []
  match rd.tool_calls with
  | some tcs =>
    if tcs.isEmpty then content
    else if is_claude_model then content ++ tcs.map claude_tool_block
    else
      let tool_text := "\n\nTool usage:\n" ++ joinStrs (tcs.map tool_call_text)
      match content with
      | RespBlock.text t :: rest => RespBlock.text (t ++ tool_text) :: rest
      | _ => content ++ [RespBlock.text tool_text]
  | Option.none => content

/-- `_map_finish_reason_to_stop_reason` (litellm_to_anthropic.py lines
224-231); `none` models a Python None finish reason, mapped to the default
end_turn. -/
def map_finish_reason_to_stop_reason (finish_reason : Option String) : String :=
  match finish_reason with
  | some "stop" => "end_turn"
  | some "length" => "max_tokens"
  | some "tool_calls" => "tool_use"
  | _ => "end_turn"

/-- The pydantic validity of a response content block: `MessagesResponse`
(models.py lines 146-154) requires every block to be a text block or a
tool_use block whose input is a dict. -/
def validRespBlock : RespBlock → Bool
  | RespBlock.text _ => true
  | RespBlock.tool_use _ _ (JVal.obj _) => true
  | RespBlock.tool_use _ _ _ => false

/-- The Anthropic response (models.py `MessagesResponse`; role and type are
fixed, the cache usage fields are always 0). -/
structure AnthResponse where
  id : String
  model : String
  content : List RespBlock
  stop_reason : String
  stop_sequence : Option String := Option.none
  input_tokens : Nat
  output_tokens : Nat
deriving Repr

/-- The message pydantic raises when validating a `MessagesResponse` whose
content holds a tool_use block with a non-dict input (the `str(e)` text is
upstream-formatted; it is carried opaquely). -/
def pydanticErrorText : String := "1 validation error for MessagesResponse"

/-- The try-block body of `convert_litellm_to_anthropic`
(litellm_to_anthropic.py lines 14-55): strip an anthropic/ or openai/
prefix from the request model, detect claude models, build the content
blocks, substitute a single empty text block for an empty content list,
and construct the validated `MessagesResponse`; a validation failure (a
tool_use block whose parsed arguments are not a JSON object) is the error
outcome caught by the except handler. -/
def convertInner (resp : LLResponseData) (req : AnthropicRequest) :
    Except String AnthResponse :=
  let clean_model :=
    if pyStartsWith req.model "anthropic/" then pyDropChars req.model 10
    else if pyStartsWith req.model "openai/" then pyDropChars req.model 7
    else req.model
  let is_claude_model := pyStartsWith clean_model "claude-"
  let content := build_content_blocks resp is_claude_model
  let content := if content.isEmpty then [RespBlock.text ""] else content
  if content.all validRespBlock then
    Except.ok
      { id := resp.response_id.getD genRespMsgId
        model := req.model
        content := content
        stop_reason := map_finish_reason_to_stop_reason resp.finish_reason
        stop_sequence := Option.none
        input_tokens := resp.prompt_tokens
        output_tokens := resp.completion_tokens }
  else Except.error pydanticErrorText

/-- `convert_litellm_to_anthropic` (litellm_to_anthropic.py lines 10-71):
the converted response on success, and on any internal conversion failure
the degraded fallback response of lines 63-71 — a single text block
carrying the error text, zero usage and stop_reason end_turn — instead of a
propagated exception. -/
def convert_litellm_to_anthropic (resp : LLResponseData)
    (req : AnthropicRequest) : AnthResponse :=
  match convertInner resp req with
  | Except.ok r => r
  | Except.error e =>
    { id := genRespMsgId
      model := req.model
      content := [RespBlock.text
        ("Error converting response: " ++ e ++ ". Please check server logs.")]
      stop_reason := "end_turn"
      stop_sequence := Option.none
      input_tokens := 0
      output_tokens := 0 }

/-! ## Model routing (src/app/models.py lines 44-102, src/app/config.py) -/

/-- The configuration the router reads: Config.PREFERRED_PROVIDER,
Config.BIG_MODEL, Config.SMALL_MODEL and the two provider catalogs of
ModelLists. -/
structure RouterConfig where
  preferredProvider : String
  bigModel : String
  smallModel : String
  geminiModels : List String
  openaiModels : List String
deriving DecidableEq, Repr

/-- Whether `pat` is a prefix of some suffix of the character list. -/
def charsContain (pat : List Char) : List Char → Bool
  | [] => pat.isEmpty
  | c :: rest => pat.isPrefixOf (c :: rest) || charsContain pat rest

/-- Python's substring containment test (`"haiku" in s`). -/
def strContains (s pat : String) : Bool :=
  charsContain pat.toList s.toList

/-- The prefix stripping of models.py lines 52-58 (one elif chain, so only
the first matching prefix is removed). -/
def cleanModelName (m : String) : String :=
  if pyStartsWith m "anthropic/" then pyDropChars m 10
  else if pyStartsWith m "openai/" then pyDropChars m 7
  else if pyStartsWith m "gemini/" then pyDropChars m 7
  else m

/-- `validate_and_map_model` (models.py lines 44-102).  The function is pure
and total by construction: it reads only the configuration and the model
string, never request content. -/
def validate_and_map_model (cfg : RouterConfig) (model_name : String) : String :=
  let clean_model := cleanModelName model_name
  if strContains (pyLower clean_model) "haiku" then
    if cfg.preferredProvider = "google" ∧ cfg.geminiModels.contains cfg.smallModel then
      "gemini/" ++ cfg.smallModel
    else "openai/" ++ cfg.smallModel
  else if strContains (pyLower clean_model) "sonnet" then
    if cfg.preferredProvider = "google" ∧ cfg.geminiModels.contains cfg.bigModel then
      "gemini/" ++ cfg.bigModel
    else "openai/" ++ cfg.bigModel
  else if cfg.geminiModels.contains clean_model ∧
      ¬ pyStartsWith model_name "gemini/" then
    "gemini/" ++ clean_model
  else if cfg.openaiModels.contains clean_model ∧
      ¬ pyStartsWith model_name "openai/" then
    "openai/" ++ clean_model
  else model_name

/-- The router's `mapped` flag (models.py lines 61-88): whether any mapping
rule — the haiku alias, the sonnet alias, or either catalog prefix rule —
fires on the given model string. -/
def routerRuleFires (cfg : RouterConfig) (m : String) : Bool :=
  let clean_model := cleanModelName m
  strContains (pyLower clean_model) "haiku" ||
  strContains (pyLower clean_model) "sonnet" ||
  (cfg.geminiModels.contains clean_model && !(pyStartsWith m "gemini/")) ||
  (cfg.openaiModels.contains clean_model && !(pyStartsWith m "openai/"))

/-- The configuration of config.py with its default environment (preferred
provider "openai", BIG_MODEL gpt-4.1, SMALL_MODEL gpt-4.1-mini, and the two
catalogs of ModelLists). -/
def defaultRouterConfig : RouterConfig :=
  { preferredProvider := "openai"
    bigModel := "gpt-4.1"
    smallModel := "gpt-4.1-mini"
    geminiModels :=
      ["gemini-2.5-pro-preview-03-25", "gemini-2.0-flash", "gemini-2.5-pro",
       "gemini-2.5-flash"]
    openaiModels :=
      ["o3-mini", "o1", "o1-mini", "o1-pro", "gpt-4.5-preview", "gpt-4o",
       "gpt-4o-audio-preview", "chatgpt-4o-latest", "gpt-4o-mini",
       "gpt-4o-mini-audio-preview", "gpt-4.1", "gpt-4.1-mini"] }

/-! ## Concrete inputs used by the claim witnesses and counterexamples -/

/-- A user message mixing a text block with a tool_result block (not
exclusively tool-results). -/
def msgC2 : AMessage :=
  { role := Role.user,
    content := AContent.blocks
      [ContentBlock.text "hi",
       ContentBlock.tool_result "t1" (some (JVal.str "42"))] }

/-- An upstream tool call whose argument string parses to a JSON array
(not an object), which the response model rejects. -/
def badToolCall : LLToolCall :=
  { id := some "call_1", name := some "f",
    arguments :=
      ArgVal.argString "[1, 2]" (some (JVal.arr [JVal.num 1, JVal.num 2])) }

/-- An upstream response carrying only `badToolCall`. -/
def respBad : LLResponseData :=
  { content_text := Option.none,
    tool_calls := some [badToolCall],
    finish_reason := some "tool_calls" }

/-- A request routed to a claude model (native tool_use blocks). -/
def reqClaude : AnthropicRequest :=
  { model := "anthropic/claude-3-opus", max_tokens := 100 }

/-- The spec's flattening example: a single tool_result block dict with
tool_use_id t1 and string content "42". -/
def toolResultMsg42 : List JVal :=
  [JVal.obj
    [("type", JVal.str "tool_result"), ("tool_use_id", JVal.str "t1"),
     ("content", JVal.str "42")]]

/-- A request whose optional sampling parameters are all falsy (top_p 0.0,
top_k 0, empty stop_sequences) on an openai/ model above the token cap. -/
def req10 : AnthropicRequest :=
  { model := "openai/gpt-4.1", max_tokens := 20000,
    top_p := some 0, top_k := some 0, stop_sequences := some [] }

/-! ## Theorems (placeholder marker: converter definitions are inserted
above this section as the development grows) -/

/-- Helper: the tool content_block_start indices of an event list grow by
appends. -/
lemma toolStartIndices_append (a b : List SSEEvent) :
    toolStartIndices (a ++ b) = toolStartIndices a ++ toolStartIndices b := by
  simp [toolStartIndices, List.filterMap_append]

/-- Helper: `process_single_tool_call` emits a tool content_block_start
exactly when the fragment's upstream index differs from the tracked one,
and then at freshly allocated block index `last_tool_index + 1`. -/
lemma toolStartIndices_single (tc : ToolCallFrag) (s : StreamingState) :
    toolStartIndices (process_single_tool_call tc s).events =
      toolStartIndices s.events ++
        (if s.tool_index = some (tc.index.getD 0) then []
         else [s.last_tool_index + 1]) := by
  unfold process_single_tool_call
  by_cases h : s.tool_index = some (tc.index.getD 0)
  · have hcond : ¬ (s.tool_index = none ∨ s.tool_index ≠ some (tc.index.getD 0)) := by
      simp [h]
    simp only [hcond, if_neg, ite_false, h, ite_true]
    by_cases ha : tc.arguments.getD "" ≠ ""
    · simp [ha, StreamingState.add_event, toolStartIndices_append, toolStartIndices]
    · simp at ha
      simp [ha, toolStartIndices]
  · have hcond : s.tool_index = none ∨ s.tool_index ≠ some (tc.index.getD 0) := Or.inr h
    simp only [hcond, ite_true, h, ite_false]
    by_cases ha : tc.arguments.getD "" ≠ ""
    · simp [ha, StreamingState.add_event, toolStartIndices_append, toolStartIndices]
    · simp at ha
      simp [ha, StreamingState.add_event, toolStartIndices_append, toolStartIndices]

/-- Claim C1 (counterexample): on the stream whose tool-call fragments carry
upstream indices [5, 5, 7, 5], the translator does NOT emit one
content_block_start per distinct upstream index: it emits three tool
content_block_start events (at block indices 1, 2 and 3 — the return of
upstream index 5 after index 7 opens a fresh block), not the two the claim
asserts. -/
theorem claim_c1_counterexample :
    (toolStartIndices run5575Events).length ≠ 2 ∧
      toolStartIndices run5575Events = [1, 2, 3] := by
  constructor
  · decide
  · decide

/-- Claim C1 (amended): the stream translator allocates a fresh Anthropic
block index (the successor of the last allocated one) for every tool-call
fragment whose upstream index differs from the currently tracked upstream
index, i.e. once per maximal run of equal consecutive upstream indices —
not once per distinct upstream index.  Hence the stream with upstream
indices [5, 5, 7, 5] emits three content_block_start events, at block
indices 1 (first run of 5), 2 (run of 7) and 3 (the second run of 5). -/
theorem claim_c1_amended :
    (∀ (tc : ToolCallFrag) (s : StreamingState),
        toolStartIndices (process_single_tool_call tc s).events =
          toolStartIndices s.events ++
            (if s.tool_index = some (tc.index.getD 0) then []
             else [s.last_tool_index + 1])) ∧
      toolStartIndices run5575Events = [1, 2, 3] := by
  exact ⟨toolStartIndices_single, by decide⟩

/-- Helper: `process_text_content` never touches the stop-reason flag. -/
lemma pt_preserves_stop (content : Option String) (s : StreamingState) :
    (process_text_content content s).has_sent_stop_reason =
      s.has_sent_stop_reason := by
  unfold process_text_content
  cases content with
  | none => rfl
  | some c =>
    by_cases h : c ≠ "" <;> simp [h, StreamingState.add_event]
    by_cases h2 : s.tool_index = none ∧ s.text_block_closed = false <;>
      simp [h2, StreamingState.add_event]

/-- Helper: `_handle_first_tool_call` never touches the stop-reason flag. -/
lemma hftc_preserves_stop (s : StreamingState) :
    (handle_first_tool_call s).has_sent_stop_reason = s.has_sent_stop_reason := by
  unfold handle_first_tool_call
  split <;> try rfl
  split <;> try rfl
  split <;> rfl

/-- Helper: `process_single_tool_call` never touches the stop-reason flag. -/
lemma pstc_preserves_stop (tc : ToolCallFrag) (s : StreamingState) :
    (process_single_tool_call tc s).has_sent_stop_reason =
      s.has_sent_stop_reason := by
  unfold process_single_tool_call
  dsimp only
  split <;> split <;> rfl

/-- Helper: `process_tool_calls` never touches the stop-reason flag. -/
lemma ptc_preserves_stop (tcs : List ToolCallFrag) (s : StreamingState) :
    (process_tool_calls tcs s).has_sent_stop_reason = s.has_sent_stop_reason := by
  unfold process_tool_calls
  split
  · rename_i h
    have key : ∀ (l : List ToolCallFrag) (st : StreamingState),
        (l.foldl (fun st tc => process_single_tool_call tc st) st).has_sent_stop_reason =
          st.has_sent_stop_reason := by
      intro l
      induction l with
      | nil => intro st; rfl
      | cons tc rest ih =>
        intro st
        simp only [List.foldl_cons]
        rw [ih, pstc_preserves_stop]
    rw [key]
    split <;> simp [hftc_preserves_stop]
  · rfl

/-- Helper: processing a chunk with no truthy finish reason preserves the
stop-reason flag. -/
lemma pc_preserves_stop (c : Chunk) (s : StreamingState)
    (h : chunkNoFinish (some c) = true) :
    (process_chunk c s).has_sent_stop_reason = s.has_sent_stop_reason := by
  unfold process_chunk
  unfold chunkNoFinish at h
  cases hc : c.choice with
  | none =>
    simp only [hc]
    cases c.usagePrompt <;> cases c.usageCompletion <;> rfl
  | some ch =>
    simp only [hc]
    simp only [hc] at h
    cases hf : ch.finish_reason with
    | none =>
      simp only [hf]
      rw [ptc_preserves_stop, pt_preserves_stop]
      cases c.usagePrompt <;> cases c.usageCompletion <;> rfl
    | some fr =>
      simp only [hf] at h
      have : fr = "" := by simpa using h
      simp only [hf, this]
      simp only [ne_eq, not_true_eq_false, false_and, if_false]
      rw [ptc_preserves_stop, pt_preserves_stop]
      cases c.usagePrompt <;> cases c.usageCompletion <;> rfl

/-- Helper: a chunk run containing no truthy finish reason preserves the
stop-reason flag of the state it starts from. -/
lemma runChunks_preserves_stop (cs : List (Option Chunk)) (s : StreamingState)
    (h : ∀ oc ∈ cs, chunkNoFinish oc = true) :
    (runChunks cs s).2.has_sent_stop_reason = s.has_sent_stop_reason := by
  induction cs generalizing s with
  | nil => rfl
  | cons oc rest ih =>
    cases oc with
    | none =>
      exact ih s (fun x hx => h x (List.mem_cons_of_mem _ hx))
    | some c =>
      show (runChunks (some c :: rest) s).2.has_sent_stop_reason = _
      unfold runChunks
      simp only []
      rw [ih _ (fun x hx => h x (List.mem_cons_of_mem _ hx))]
      show (process_chunk c s).has_sent_stop_reason = _
      exact pc_preserves_stop c s (h (some c) (List.mem_cons_self _ _))

/-- Claim C3: a finite chunk sequence containing no truthy finish reason
still yields the full finalize sequence after exhaustion — every allocated
tool block is closed (when any was opened), then the text block if not
already closed (flushing accumulated-but-unsent text first), then a
message_delta with stop_reason end_turn carrying the final output-token
usage, then message_stop, then the [DONE] terminator frame. -/
theorem claim_c3 (messageId model : String) (cs : List (Option Chunk))
    (h : ∀ oc ∈ cs, chunkNoFinish oc = true) :
    handle_streaming messageId model cs false =
      streamPreamble messageId model ++ (runChunks cs {}).1 ++
        ((if (runChunks cs {}).2.tool_index.isSome then
            (List.range' 1 (runChunks cs {}).2.last_tool_index).map
              SSEEvent.contentBlockStop
          else [])
        ++ (if (runChunks cs {}).2.text_block_closed then []
            else
              (if (runChunks cs {}).2.accumulated_text ≠ "" ∧
                  (runChunks cs {}).2.text_sent = false then
                  [SSEEvent.deltaText 0 (runChunks cs {}).2.accumulated_text]
                else [])
              ++ [SSEEvent.contentBlockStop 0])
        ++ [SSEEvent.messageDelta "end_turn" (runChunks cs {}).2.output_tokens,
            SSEEvent.messageStop, SSEEvent.done]) := by
  have hstop : (runChunks cs {}).2.has_sent_stop_reason = false :=
    runChunks_preserves_stop cs {} h
  unfold handle_streaming
  simp only [Bool.false_eq_true, if_false, hstop, if_true]
  rfl

/-- Witness for claim C3: a one-chunk text-only stream (no finish reason)
produces the complete terminal sequence. -/
theorem claim_c3_witness :
    handle_streaming "m" "x" [some (mkTextChunk "hi")] false =
      [SSEEvent.messageStart "m" "x", SSEEvent.contentBlockStartText 0,
       SSEEvent.ping, SSEEvent.deltaText 0 "hi", SSEEvent.contentBlockStop 0,
       SSEEvent.messageDelta "end_turn" 0, SSEEvent.messageStop,
       SSEEvent.done] := by
  have h := claim_c3 "m" "x" [some (mkTextChunk "hi")] (by decide)
  exact h.trans (by decide)

/-- Helper: unfolding equation of `runChunks` on a surviving chunk. -/
lemma runChunks_cons_some (c : Chunk) (rest : List (Option Chunk))
    (s : StreamingState) :
    runChunks (some c :: rest) s =
      ((process_chunk c s).events ++
          (runChunks rest { process_chunk c s with events := [] }).1,
       (runChunks rest { process_chunk c s with events := [] }).2) := rfl

/-- Helper: chunks whose per-chunk processing raises contribute nothing —
a run equals the run of the surviving chunks. -/
lemma runChunks_filter (cs : List (Option Chunk)) (s : StreamingState) :
    runChunks cs s = runChunks (cs.filter Option.isSome) s := by
  induction cs generalizing s with
  | nil => rfl
  | cons oc rest ih =>
    cases oc with
    | none =>
      show runChunks rest s = _
      rw [ih]
      rfl
    | some c =>
      show _ = runChunks (List.filter Option.isSome (some c :: rest)) s
      rw [List.filter_cons_of_pos (by rfl)]
      rw [runChunks_cons_some, runChunks_cons_some, ih]

/-- Claim C4: a chunk whose per-chunk processing raises is skipped and the
stream continues — the emitted stream equals that of the surviving chunks —
and an exception escaping the per-chunk loop entirely is terminal: the
translator then emits exactly a message_delta with stop_reason "error" and
zero output tokens, a message_stop, and the [DONE] terminator, and nothing
after them. -/
theorem claim_c4 (messageId model : String) (cs : List (Option Chunk))
    (genFails : Bool) :
    handle_streaming messageId model cs genFails =
        handle_streaming messageId model (cs.filter Option.isSome) genFails ∧
      handle_streaming messageId model cs true =
        streamPreamble messageId model ++ (runChunks cs {}).1 ++
          [SSEEvent.messageDelta "error" 0, SSEEvent.messageStop,
           SSEEvent.done] := by
  constructor
  · unfold handle_streaming
    rw [runChunks_filter cs]
  · unfold handle_streaming
    simp

/-- Witness for claim C4: a stream with one surviving text chunk and one
raising chunk, under a terminal generator failure, yields the events of the
surviving chunk followed by the error terminal sequence. -/
theorem claim_c4_witness :
    handle_streaming "m" "x" [some (mkTextChunk "hi"), none] true =
        handle_streaming "m" "x" [some (mkTextChunk "hi")] true ∧
      handle_streaming "m" "x" [some (mkTextChunk "hi"), none] true =
        [SSEEvent.messageStart "m" "x", SSEEvent.contentBlockStartText 0,
         SSEEvent.ping, SSEEvent.deltaText 0 "hi",
         SSEEvent.messageDelta "error" 0, SSEEvent.messageStop,
         SSEEvent.done] := by
  have h := claim_c4 "m" "x" [some (mkTextChunk "hi"), none] true
  exact ⟨by rw [h.1]; rfl, h.2.trans (by decide)⟩

/-- Helper: on a text-only chunk, `process_chunk` reduces to the text
processing step. -/
lemma pc_text (t : String) (s : StreamingState) :
    process_chunk (mkTextChunk t) s = process_text_content (some t) s := by
  unfold process_chunk mkTextChunk process_tool_calls
  simp

/-- Helper: `joinStrs` distributes over append. -/
lemma joinStrs_append (a b : List String) :
    joinStrs (a ++ b) = joinStrs a ++ joinStrs b := by
  induction a with
  | nil => simp [joinStrs]
  | cons t ts ih => simp [joinStrs, ih, String.append_assoc]

/-- Helper: dropping empty strings does not change a concatenation. -/
lemma joinStrs_filter_ne (ss : List String) :
    joinStrs (ss.filter (fun t => decide (t ≠ ""))) = joinStrs ss := by
  induction ss with
  | nil => rfl
  | cons t ts ih =>
    by_cases ht : t = ""
    · subst ht
      simpa [joinStrs] using ih
    · simp only [decide_not] at ih
      simp [ht, joinStrs, ih]

/-- Helper: a list whose strings are all empty concatenates to the empty
string. -/
lemma joinStrs_of_not_any (ss : List String)
    (h : ss.any (fun t => decide (t ≠ "")) = false) : joinStrs ss = "" := by
  induction ss with
  | nil => rfl
  | cons t ts ih =>
    simp only [List.any_cons, Bool.or_eq_false_iff] at h
    have ht : t = "" := by simpa using h.1
    subst ht
    simpa [joinStrs] using ih h.2

/-- Helper: `textDeltaConcat` distributes over append. -/
lemma textDeltaConcat_append (a b : List SSEEvent) :
    textDeltaConcat (a ++ b) = textDeltaConcat a ++ textDeltaConcat b := by
  simp [textDeltaConcat, List.filterMap_append, joinStrs_append]

/-- Helper: concatenating the payloads of a pure text_delta list recovers
the underlying strings. -/
lemma textDeltaConcat_deltas (l : List String) :
    textDeltaConcat (l.map (SSEEvent.deltaText 0)) = joinStrs l := by
  induction l with
  | nil => rfl
  | cons t ts ih => simp [textDeltaConcat, joinStrs] at ih ⊢; simp [ih]

/-- Helper invariant for text-only streams: starting from a state with no
tool block, an open text block and an empty event buffer, the run emits one
text_delta at index 0 per non-empty delta (in order) and accumulates the
concatenation, leaving all other fields untouched. -/
lemma textRun_invariant (ss : List String) :
    ∀ s : StreamingState, s.tool_index = none → s.text_block_closed = false →
      s.events = [] →
      runChunks (ss.map (fun t => some (mkTextChunk t))) s =
        ((ss.filter (fun t => decide (t ≠ ""))).map (SSEEvent.deltaText 0),
         { s with accumulated_text := s.accumulated_text ++ joinStrs ss,
                  text_sent :=
                    s.text_sent || ss.any (fun t => decide (t ≠ "")) }) := by
  induction ss with
  | nil =>
    intro s hti htc hev
    simp [runChunks, joinStrs]
  | cons t ts ih =>
    intro s hti htc hev
    rw [List.map_cons, runChunks_cons_some, pc_text]
    by_cases ht : t = ""
    · subst ht
      have h1 : process_text_content (some "") s = s := by
        simp [process_text_content]
      rw [h1]
      have h2 : ({ s with events := [] } : StreamingState) = s := by
        cases s
        simp only [] at hev
        simp [hev]
      rw [h2, ih s hti htc hev, hev]
      simp [joinStrs]
    · have h1 : process_text_content (some t) s =
          { s with accumulated_text := s.accumulated_text ++ t,
                   text_sent := true,
                   events := s.events ++ [SSEEvent.deltaText 0 t] } := by
        simp [process_text_content, ht, hti, htc, StreamingState.add_event]
      rw [h1]
      rw [ih { s with accumulated_text := s.accumulated_text ++ t,
                      text_sent := true, events := [] } hti htc rfl]
      cases s
      simp only [] at hev hti htc
      subst hev hti htc
      simp [ht, joinStrs, String.append_assoc]

/-- Claim C5: for any sequence of text-only chunks, the final accumulated
text equals the concatenation S of the deltas, the events emitted by the
chunk loop are exactly one content_block_delta (text_delta, block index 0)
per non-empty delta in order, and the concatenation of all text_delta
payloads of the full stream output also equals S. -/
theorem claim_c5 (ss : List String) (messageId model : String) :
    (runChunks (ss.map (fun t => some (mkTextChunk t))) {}).2.accumulated_text =
        joinStrs ss
    ∧ (runChunks (ss.map (fun t => some (mkTextChunk t))) {}).1 =
        (ss.filter (fun t => decide (t ≠ ""))).map (SSEEvent.deltaText 0)
    ∧ textDeltaConcat
        (handle_streaming messageId model
          (ss.map (fun t => some (mkTextChunk t))) false) = joinStrs ss := by
  have key := textRun_invariant ss {} rfl rfl rfl
  refine ⟨?_, ?_, ?_⟩
  · rw [key]
    exact (String.empty_append _)
  · rw [key]
  · unfold handle_streaming
    rw [key]
    dsimp only
    unfold StreamingState.finalize
    dsimp only
    rw [textDeltaConcat_append, textDeltaConcat_append, textDeltaConcat_deltas,
      joinStrs_filter_ne]
    by_cases hany : ss.any (fun t => decide (t ≠ "")) = true
    · have hex : ∃ x ∈ ss, ¬ x = "" := by simpa using hany
      obtain ⟨x, hx, hxne⟩ := hex
      have hcond : ¬(¬joinStrs ss = "" ∧ ∀ y ∈ ss, y = "") :=
        fun hc => hxne (hc.2 x hx)
      simp [textDeltaConcat, streamPreamble, hany, joinStrs,
        String.empty_append, String.append_empty, hcond]
    · have hany' : ss.any (fun t => decide (t ≠ "")) = false := by
        simpa using hany
      have hj : joinStrs ss = "" := joinStrs_of_not_any ss hany'
      simp [textDeltaConcat, streamPreamble, hany', hj, joinStrs,
        String.empty_append, String.append_empty]

/-- Claim C9 (counterexample): the [DONE] terminator produced by the first
finish-reason chunk is NOT always the last frame: on the stream
[text "a", finish stop, text "b"] the translator emits a further
content_block_delta (text_delta "b" at index 0) after the [DONE] frame,
because the finish processing never sets the text-closed flag. -/
theorem claim_c9_counterexample :
    afterFirstDone (handle_streaming "m" "x" lateTextStream false) =
        [SSEEvent.deltaText 0 "b"] ∧
      afterFirstDone (handle_streaming "m" "x" lateTextStream false) ≠ [] := by
  constructor
  · decide
  · decide

/-- Claim C9 (amended): after the state is marked finished, only subsequent
finish-reason chunks are guaranteed to emit nothing (the `finished` guard
covers exactly the finish-reason processing): such a chunk leaves the state
— including the pending event buffer — completely unchanged.  Text and
tool-call deltas arriving after the finalize sequence may still emit
events, as the counterexample shows. -/
theorem claim_c9_amended (fr : String) (s : StreamingState)
    (h : s.has_sent_stop_reason = true) :
    process_chunk (mkFinishChunk fr) s = s := by
  unfold process_chunk mkFinishChunk process_text_content process_tool_calls
  simp [h]

/-- Witness for the amended claim C9: a finish-reason chunk arriving in an
already-finished state is a no-op. -/
theorem claim_c9_amended_witness :
    process_chunk (mkFinishChunk "stop")
        ({ has_sent_stop_reason := true } : StreamingState) =
      ({ has_sent_stop_reason := true } : StreamingState) := by
  exact claim_c9_amended "stop" { has_sent_stop_reason := true } rfl

/-- Claim C2 (counterexample): a user message whose content mixes a text
block with a tool_result block — so its blocks are NOT exclusively
tool-results — is nevertheless flattened into one synthetic string message
("hi\nTool result for t1:\n42"), not mapped 1:1 into the block vocabulary
as the claim asserts: the converter flattens whenever at least one
tool_result block is present. -/
theorem claim_c2_counterexample :
    convert_message msgC2 =
        { role := Role.user,
          content := LitContent.str "hi\nTool result for t1:\n42" } ∧
      (convert_message msgC2).content.isStr = true := by
  exact ⟨rfl, rfl⟩

/-- Claim C2 (amended): a user message whose content contains AT LEAST ONE
tool_result block is flattened into one synthetic text message — text
blocks contribute their text plus a newline, tool_result blocks contribute
"Tool result for <id>:\n<extracted text>\n", other blocks nothing, the
result stripped; only a user message with NO tool_result block has its
content blocks mapped 1:1 with unknown block types dropped. -/
theorem claim_c2_amended (bs : List ContentBlock) :
    convert_message { role := Role.user, content := AContent.blocks bs } =
      (if bs.any isToolResultBlock then
        { role := Role.user,
          content := LitContent.str (pyStrip (flatten_user_tool_result bs)) }
      else
        { role := Role.user,
          content := LitContent.blocks (bs.filterMap process_content_block) }) := by
  unfold convert_message
  by_cases h : bs.any isToolResultBlock = true <;> simp [h]

/-- Claim C6: the non-streaming response translator is total (it is a plain
function of the upstream response data and the original request) and never
propagates an internal conversion failure: when the inner conversion
errors, it returns the degraded response — a single text block carrying the
error text, zero input and output tokens, and stop_reason end_turn — and
when the inner conversion succeeds it returns its result unchanged. -/
theorem claim_c6 (resp : LLResponseData) (req : AnthropicRequest) :
    (∀ e, convertInner resp req = Except.error e →
        convert_litellm_to_anthropic resp req =
          { id := genRespMsgId
            model := req.model
            content := [RespBlock.text
              ("Error converting response: " ++ e ++
                ". Please check server logs.")]
            stop_reason := "end_turn"
            stop_sequence := Option.none
            input_tokens := 0
            output_tokens := 0 }) ∧
      (∀ r, convertInner resp req = Except.ok r →
        convert_litellm_to_anthropic resp req = r) := by
  constructor
  · intro e he
    unfold convert_litellm_to_anthropic
    rw [he]
  · intro r hr
    unfold convert_litellm_to_anthropic
    rw [hr]

/-- Witness for claim C6: a tool call whose argument string parses to a
JSON array makes the inner conversion fail, and the translator returns the
degraded response instead of raising. -/
theorem claim_c6_witness :
    convertInner respBad reqClaude = Except.error pydanticErrorText ∧
      convert_litellm_to_anthropic respBad reqClaude =
        { id := genRespMsgId
          model := "anthropic/claude-3-opus"
          content := [RespBlock.text
            ("Error converting response: " ++ pydanticErrorText ++
              ". Please check server logs.")]
          stop_reason := "end_turn"
          stop_sequence := Option.none
          input_tokens := 0
          output_tokens := 0 } :=
  ⟨rfl, (claim_c6 respBad reqClaude).1 pydanticErrorText rfl⟩

/-- Claim C7: a content list composed solely of tool-result blocks is
normalized to the single string obtained by concatenating, per block,
"Tool Result:\n" plus the block's extracted text, stripped, with the
placeholder "..." substituted when stripping leaves nothing — so the
content is never empty. -/
theorem claim_c7 (items : List JVal)
    (h : is_only_tool_result_message items = true) :
    process_openai_message_content (OMsgContent.list items) =
      OMsgContent.str
        (if pyStrip (joinStrs (items.map
              (fun b => "Tool Result:\n" ++ tool_result_block_text b))) = ""
         then "..."
         else pyStrip (joinStrs (items.map
              (fun b => "Tool Result:\n" ++ tool_result_block_text b)))) := by
  unfold process_openai_message_content extract_tool_result_text
  simp [h]

/-- Witness for claim C7: the spec's example — a single tool_result block
with tool_use_id t1 and content "42" — normalizes to exactly
"Tool Result:\n42". -/
theorem claim_c7_witness :
    is_only_tool_result_message toolResultMsg42 = true ∧
      process_openai_message_content (OMsgContent.list toolResultMsg42) =
        OMsgContent.str "Tool Result:\n42" :=
  ⟨rfl, (claim_c7 toolResultMsg42 rfl).trans (by rfl)⟩

/-- Helper: when no mapping rule fires on a model string, the router passes
it through unchanged (models.py lines 90-95). -/
lemma route_id_of_no_rule (cfg : RouterConfig) (m : String)
    (h : routerRuleFires cfg m = false) :
    validate_and_map_model cfg m = m := by
  unfold routerRuleFires at h
  simp only [Bool.or_eq_false_iff, Bool.and_eq_false_iff,
    Bool.not_eq_false'] at h
  obtain ⟨⟨⟨h1, h2⟩, h3⟩, h4⟩ := h
  rcases h3 with h3 | h3 <;> rcases h4 with h4 | h4 <;>
    simp_all [validate_and_map_model]

/-- Claim C8: the model router is pure and total by construction — it is a
plain function of the fixed configuration and the model string alone, never
of request content — and it is idempotent on its own output: re-applying it
to an already-routed identifier returns that identifier unchanged whenever
no mapping rule (haiku alias, sonnet alias, or catalog prefix rule) fires
on it again. -/
theorem claim_c8 (cfg : RouterConfig) (m : String)
    (h : routerRuleFires cfg (validate_and_map_model cfg m) = false) :
    validate_and_map_model cfg (validate_and_map_model cfg m) =
      validate_and_map_model cfg m :=
  route_id_of_no_rule cfg (validate_and_map_model cfg m) h

/-- Witness for claim C8: under the default configuration, a haiku model
routes to openai/gpt-4.1-mini, on which no rule fires, so re-routing is the
identity. -/
theorem claim_c8_witness :
    validate_and_map_model defaultRouterConfig "claude-3-5-haiku-20241022" =
        "openai/gpt-4.1-mini" ∧
      routerRuleFires defaultRouterConfig "openai/gpt-4.1-mini" = false ∧
      validate_and_map_model defaultRouterConfig
          (validate_and_map_model defaultRouterConfig
            "claude-3-5-haiku-20241022") =
        validate_and_map_model defaultRouterConfig
          "claude-3-5-haiku-20241022" :=
  ⟨by decide, by decide,
    claim_c8 defaultRouterConfig "claude-3-5-haiku-20241022" (by decide)⟩

/-- Claim C10: the optional parameters stop_sequences, top_p and top_k are
copied into the normalized request only when truthy (an absent or falsy
value — 0.0, 0, or the empty list — leaves the key out entirely), while the
model, messages, max_tokens, temperature and stream keys are always present
(they are mandatory fields of the normalized request), with max_tokens
capped at 16384 for openai/ and gemini/ models. -/
theorem claim_c10 (req : AnthropicRequest) :
    ((req.top_p = some 0 ∨ req.top_p = Option.none) →
        (convert_anthropic_to_litellm req).top_p = Option.none) ∧
      (∀ p, req.top_p = some p → ¬ p = 0 →
        (convert_anthropic_to_litellm req).top_p = some p) ∧
      ((req.top_k = some 0 ∨ req.top_k = Option.none) →
        (convert_anthropic_to_litellm req).top_k = Option.none) ∧
      (∀ k, req.top_k = some k → ¬ k = 0 →
        (convert_anthropic_to_litellm req).top_k = some k) ∧
      ((req.stop_sequences = some [] ∨ req.stop_sequences = Option.none) →
        (convert_anthropic_to_litellm req).stop = Option.none) ∧
      (∀ l, req.stop_sequences = some l → ¬ l = [] →
        (convert_anthropic_to_litellm req).stop = some l) ∧
      (convert_anthropic_to_litellm req).model = req.model ∧
      (convert_anthropic_to_litellm req).temperature = req.temperature ∧
      (convert_anthropic_to_litellm req).stream = req.stream ∧
      (convert_anthropic_to_litellm req).max_tokens =
        (if pyStartsWith req.model "openai/" || pyStartsWith req.model "gemini/"
         then min req.max_tokens 16384
         else req.max_tokens) := by
  refine ⟨?_, ?_, ?_, ?_, ?_, ?_, rfl, rfl, rfl, rfl⟩
  · rintro (h | h) <;> simp [convert_anthropic_to_litellm, h]
  · intro p hp hpne
    simp [convert_anthropic_to_litellm, hp, hpne]
  · rintro (h | h) <;> simp [convert_anthropic_to_litellm, h]
  · intro k hk hkne
    simp [convert_anthropic_to_litellm, hk, hkne]
  · rintro (h | h) <;> simp [convert_anthropic_to_litellm, h]
  · intro l hl hlne
    simp [convert_anthropic_to_litellm, hl, hlne]

/-- Witness for claim C10: a request with top_p 0.0, top_k 0 and empty
stop_sequences on openai/gpt-4.1 with max_tokens 20000 normalizes with no
stop, top_p or top_k key, all mandatory keys present, and max_tokens capped
at 16384. -/
theorem claim_c10_witness :
    (convert_anthropic_to_litellm req10).top_p = Option.none ∧
      (convert_anthropic_to_litellm req10).top_k = Option.none ∧
      (convert_anthropic_to_litellm req10).stop = Option.none ∧
      (convert_anthropic_to_litellm req10).model = "openai/gpt-4.1" ∧
      (convert_anthropic_to_litellm req10).temperature = some 1 ∧
      (convert_anthropic_to_litellm req10).stream = some false ∧
      (convert_anthropic_to_litellm req10).max_tokens = 16384 := by
  obtain ⟨h1, _, h3, _, h5, _, h7, h8, h9, h10⟩ := claim_c10 req10
  exact ⟨h1 (Or.inl rfl), h3 (Or.inl rfl), h5 (Or.inl rfl), h7,
    h8.trans rfl, h9.trans rfl, h10.trans (by decide)⟩
